import Mathlib

/-!
# Verification of the terraform-operator reconciler

A shallow embedding of the Go sources of the terraform-operator repository:
the Terraform custom-resource data model (api/v1alpha1), the resource-name
helpers and run-id generator (internal/terraform/resource_helpers.go), the
module renderer (internal/resources/terraform_project.go), the dependency
resolver (CheckDependencies / SetVariablesFromDependencies), the cluster
operations (internal/terraform/operations.go) and the reconciliation state
machine (internal/controllers/terraform_controller.go).

Cluster I/O is modelled by a `World` record: object stores for Terraform
runs and Jobs, plus outcome oracles for every create/update/delete call the
reconciler can issue.  Machine integers (Kubernetes `generation`,
`observedGeneration`, Go `int64`) are modelled as `Int`; Go strings as
`String`; Go slices, where their in-place mutation matters
(`SetVariablesFromDependencies`), as `Array` with explicit index shifting
mirroring Go `append` aliasing semantics.
-/

namespace TFO

/-- Kubernetes API error kinds distinguished by the operator
(`errors.IsNotFound`, `errors.IsAlreadyExists`, anything else). -/
inductive KErr where
  | notFound
  | alreadyExists
  | other
deriving DecidableEq, Repr

/-- `TerraformRunStatus` string constants from api/v1alpha1 (part_001).
`unset` models the Go zero value `""` of the string-typed status. -/
inductive TerraformRunStatus where
  | unset
  | started
  | running
  | completed
  | failed
  | waitingForDependency
  | deleted
deriving DecidableEq, Repr

/-- `SecretKeySelector` content used by the dependency rewrite:
`{secretName, key}`. -/
structure SecretKeyRef where
  secretName : String
  key : String
deriving DecidableEq, Repr

/-- `TerraformDependencyRef{Name, Key}` from api/v1alpha1. -/
structure DependencyRef where
  name : String
  key : String
deriving DecidableEq, Repr

/-- `Variable` from api/v1alpha1: key, literal value, optional `valueFrom`
secret-key reference, environment-variable flag, optional dependency ref. -/
structure Variable where
  key : String
  value : String
  valueFrom : Option SecretKeyRef
  environmentVariable : Bool
  dependencyRef : Option DependencyRef
deriving DecidableEq, Repr

/-- `DependsOn{Name, Namespace}` from api/v1alpha1. -/
structure DependsOn where
  name : String
  namespaceRef : String
deriving DecidableEq, Repr

/-- `Module{Source, Version}` from api/v1alpha1. -/
structure ModuleRef where
  source : String
  version : String
deriving DecidableEq, Repr

/-- `Output{Key, ModuleOutputName}` from api/v1alpha1. -/
structure OutputRef where
  key : String
  moduleOutputName : String
deriving DecidableEq, Repr

/-- `TerraformSpec` fields used by the embedded code paths. -/
structure TerraformSpec where
  terraformVersion : String
  module : ModuleRef
  backend : String
  providersConfig : String
  workspace : String
  dependsOn : List DependsOn
  variablesArr : Array Variable
  outputs : List OutputRef
  destroy : Bool
  deleteCompletedJobs : Bool
  retryLimit : Int
deriving DecidableEq, Repr

/-- `TerraformStatus` from api/v1alpha1. -/
structure TerraformStatus where
  runID : String
  previousRunID : String
  outputSecretName : String
  observedGeneration : Int
  runStatus : TerraformRunStatus
  message : String
  startedTime : String
  completionTime : String
deriving DecidableEq, Repr

/-- The `Terraform` custom resource: identity, metadata used by the
reconciler (generation, deletion timestamp flag, finalizers), spec, status. -/
structure Terraform where
  name : String
  namespaceRef : String
  generation : Int
  hasDeletionTimestamp : Bool
  finalizers : List String
  spec : TerraformSpec
  status : TerraformStatus
deriving DecidableEq, Repr

/-- `TerraformFinalizer = "finalizers.terraform-operator.io"`. -/
def TerraformFinalizer : String := "finalizers.terraform-operator.io"

/-! ## Naming helpers (internal/terraform/resource_helpers.go) -/

/-- `strings.TrimRight(s, cutset)` for a single-character cutset: removes
all trailing occurrences of `c`. -/
def trimRightChar (s : String) (c : Char) : String :=
  String.mk ((s.data.reverse.dropWhile (fun x => x = c)).reverse)

/-- `truncateResourceName`: names shorter than `max` pass through; longer
names are cut to `max` bytes and stripped of trailing `-` and then `.`. -/
def truncateResourceName (name : String) (max : Nat) : String :=
  if name.length < max then name
  else trimRightChar (trimRightChar (String.mk (name.data.take max)) '-') '.'

/-- `getUniqueResourceName(name, runID) = truncate(name,220) ++ "-" ++ runID`. -/
def getUniqueResourceName (name runID : String) : String :=
  truncateResourceName name 220 ++ "-" ++ runID

/-- `getOutputSecretName(runName) = truncate(runName,220) ++ "-outputs"`. -/
def getOutputSecretName (runName : String) : String :=
  truncateResourceName runName 220 ++ "-outputs"

/-- The alphabet of `random` in resource_helpers.go:
`"abcdefghijklmnopqrstuvwxyz123456790"` (35 characters, no digit 8). -/
def runIdAlphabet : List Char := "abcdefghijklmnopqrstuvwxyz123456790".data

/-- `random(n)`: `n` characters drawn from `runIdAlphabet`.  The stream of
indices produced by `crypto/rand.Int(reader, 35)` (each strictly below the
alphabet length) is abstracted as `gen : Nat → Fin 35`. -/
def randomString (n : Nat) (gen : Nat → Fin 35) : String :=
  String.mk ((List.range n).map (fun i => runIdAlphabet.getD (gen i).val 'a'))

/-- `SetRunID` (part_004): stashes a non-empty current run id into
`previousRunId` and draws a fresh 6-character id. -/
def setRunIDWith (gen : Nat → Fin 35) (t : Terraform) : Terraform :=
  { t with status :=
    { t.status with
      previousRunID := if t.status.runID ≠ "" then t.status.runID else t.status.previousRunID
      runID := randomString 6 gen } }

/-! ## Classification predicates (part_004) -/

/-- `IsSubmitted`: `Status.RunID == ""`. -/
def isSubmitted (t : Terraform) : Bool := t.status.runID = ""

/-- `IsStarted`: `RunStatus ∈ {Started, Running}`. -/
def isStarted (t : Terraform) : Bool :=
  t.status.runStatus = .started ∨ t.status.runStatus = .running

/-- `IsRunning`: `RunStatus == Running`. -/
def isRunning (t : Terraform) : Bool := t.status.runStatus = .running

/-- `IsUpdated`: `Generation > 0 ∧ Generation > Status.ObservedGeneration`. -/
def isUpdated (t : Terraform) : Bool :=
  0 < t.generation ∧ t.status.observedGeneration < t.generation

/-- `IsWaiting`: `RunStatus == WaitingForDependency`. -/
def isWaiting (t : Terraform) : Bool :=
  t.status.runStatus = .waitingForDependency

/-! ## Module renderer (internal/resources/terraform_project.go)

`GetTerraformModuleFromTemplate` expands a fixed Go `text/template`.  The
template is constant, so its expansion is embedded as the exact string
concatenation the Go template engine produces: `\x7b\x7b- …\x7d\x7d`
actions trim all white space (spaces, tabs, newlines) immediately to their
left, plain actions splice the field value, and the literal text between
actions is kept verbatim.  The result was cross-checked against the
repository's own unit test for the renderer (see
`getTerraformModuleFromTemplate_matches_unit_test` below). -/

/-- The `variable "K" \x7b\x7d` declaration lines: one per
non-environment variable, in list order. -/
def renderVariableDecls (vars : List Variable) : String :=
  vars.foldl
    (fun acc v =>
      acc ++ (if v.environmentVariable then ""
              else "\n\tvariable \"" ++ v.key ++ "\" \x7b\x7d")) ""

/-- The `K = var.K` lines of the module block: one per non-environment
variable, in list order. -/
def renderModuleVarLines (vars : List Variable) : String :=
  vars.foldl
    (fun acc v =>
      acc ++ (if v.environmentVariable then ""
              else "\n\t\t" ++ v.key ++ " = var." ++ v.key)) ""

/-- The `output "K" \x7b value = module.operator.<name> \x7d` blocks, one
per declared output, in list order. -/
def renderOutputBlocks (outs : List OutputRef) : String :=
  outs.foldl
    (fun acc o =>
      acc ++ "\n\toutput \"" ++ o.key ++ "\" \x7b\n\t\tvalue = module.operator."
          ++ o.moduleOutputName ++ "\n\t\x7d") ""

/-- `GetTerraformModuleFromTemplate`: the rendered `main.tf` text.  The
renderer is a pure function of the spec; the constant template always
parses, and executing it over a struct value cannot fail, so the embedded
renderer is total. -/
def getTerraformModuleFromTemplate (s : TerraformSpec) : String :=
  "terraform \x7b"
  ++ (if s.backend ≠ "" then "\n\t\t" ++ s.backend else "")
  ++ "\n\t\n\t\trequired_version = \"~> " ++ s.terraformVersion ++ "\"\n\t\x7d"
  ++ (if s.providersConfig ≠ "" then "\n\t" ++ s.providersConfig else "")
  ++ renderVariableDecls s.variablesArr.toList
  ++ "\n\t\n\t## additional-blocks\n\t\n\tmodule \"operator\" \x7b\n\t\tsource = \""
  ++ s.module.source ++ "\""
  ++ (if s.module.version ≠ "" then "\n\t\tversion = \"" ++ s.module.version ++ "\"" else "")
  ++ renderModuleVarLines s.variablesArr.toList
  ++ "\n\t\x7d"
  ++ renderOutputBlocks s.outputs

/-- `setBackendCfgIfNotExist`: when `spec.backend` is empty, install the
default Kubernetes backend stanza keyed by the run's name and namespace. -/
def setBackendCfgIfNotExist (t : Terraform) : Terraform :=
  if t.spec.backend = "" then
    { t with spec := { t.spec with backend :=
        "backend \"kubernetes\" \x7b\n  secret_suffix     = \"" ++ t.name
        ++ "\"\n  in_cluster_config = true\n  namespace         = \"" ++ t.namespaceRef
        ++ "\"\n\x7d\n" } }
  else t

/-! ## Dependency resolver (CheckDependencies / SetVariablesFromDependencies) -/

/-- Errors produced by `CheckDependencies`: a failed `Get` of a referenced
run, or a referenced run that is not ready. -/
inductive DepErr where
  | getFailed (e : KErr)
  | notReady
deriving DecidableEq, Repr

/-- `dependsOn` entry namespace defaulting: an empty namespace means the
parent run's namespace. -/
def defaultedNamespace (parentNs : String) (d : DependsOn) : String :=
  if d.namespaceRef = "" then parentNs else d.namespaceRef

/-- `client.Get` on the Terraform kind over the modelled object store:
the stored run with matching namespace and name, or `NotFound`. -/
def getRun (store : List Terraform) (ns name : String) : Except KErr Terraform :=
  match store.find? (fun r => r.namespaceRef = ns ∧ r.name = name) with
  | some r => .ok r
  | none => .error .notFound

/-- The readiness test of `CheckDependencies`:
`generation == observedGeneration ∧ runStatus == Completed`. -/
def depReady (r : Terraform) : Bool :=
  r.generation = r.status.observedGeneration ∧ r.status.runStatus = .completed

/-- The loop body of `CheckDependencies` over the `dependsOn` list: look up
each referenced run (namespace defaulted to the parent's), fail on a `Get`
error or an unready run, otherwise collect the run and continue. -/
def checkDependenciesAux (store : List Terraform) (parentNs : String) :
    List DependsOn → Except DepErr (List Terraform)
  | [] => .ok []
  | d :: rest =>
    match getRun store (defaultedNamespace parentNs d) d.name with
    | .error e => .error (.getFailed e)
    | .ok dep =>
      if dep.generation ≠ dep.status.observedGeneration then .error .notReady
      else if dep.status.runStatus ≠ .completed then .error .notReady
      else
        match checkDependenciesAux store parentNs rest with
        | .error e => .error e
        | .ok tail => .ok (dep :: tail)

/-- `CheckDependencies` (part_006 / checkDependencies in the controller). -/
def checkDependencies (store : List Terraform) (t : Terraform) :
    Except DepErr (List Terraform) :=
  checkDependenciesAux store t.namespaceRef t.spec.dependsOn

/-- All `dependsOn` entries of `t` resolve to a ready run in `store`. -/
def depsAllReady (store : List Terraform) (t : Terraform) : Bool :=
  t.spec.dependsOn.all (fun d =>
    match getRun store (defaultedNamespace t.namespaceRef d) d.name with
    | .ok dep => depReady dep
    | .error _ => false)

/-- The full list of runs referenced by `t.spec.dependsOn`, in order, as
resolved in `store` (lookup failures dropped). -/
def referencedRuns (store : List Terraform) (t : Terraform) : List Terraform :=
  t.spec.dependsOn.filterMap (fun d =>
    (getRun store (defaultedNamespace t.namespaceRef d) d.name).toOption)

/-- One Go iteration step of the rewrite loop in
`SetVariablesFromDependencies`:
`t.Spec.Variables = append(t.Spec.Variables[:index], t.Spec.Variables[index+1:]...)`
followed by `append(t.Spec.Variables, tfVar)`.  On the shared backing
array this shifts the elements after position `index` down by one and
writes `tfVar` into the last slot. -/
def goRemoveThenAppend (vars : Array Variable) (index : Nat) (tfVar : Variable) :
    Array Variable :=
  (vars.eraseIdx index).push tfVar

/-- `SetVariablesFromDependencies` (part_006 / setVariablesFromDependencies
in the controller), with Go slice-aliasing semantics: the outer `range`
iterates over the slice header captured at loop entry (indices
`0 … n-1`) while reading elements from the mutated backing array; the
inner loop runs over `dependencies` and uses the *dependency* index as the
variable-slice index for the remove-then-append rewrite. -/
def setVariablesFromDependencies (dependencies : List Terraform) (t : Terraform) :
    Terraform :=
  if dependencies.isEmpty then t
  else
    let n := t.spec.variablesArr.size
    let rewritten := (List.range n).foldl
      (fun backing i =>
        let v := backing.getD i ⟨"", "", none, false, none⟩
        match v.dependencyRef with
        | none => backing
        | some ref =>
          (dependencies.enum).foldl
            (fun b p =>
              if p.2.name = ref.name ∧ p.2.namespaceRef = t.namespaceRef then
                goRemoveThenAppend b p.1
                  { key := v.key, value := "", valueFrom := some ⟨p.2.status.outputSecretName, ref.key⟩,
                    environmentVariable := false, dependencyRef := some ref }
              else b)
            backing)
      t.spec.variablesArr
    { t with spec := { t.spec with variablesArr := rewritten } }

/-- The one-pass rewrite described by the specification (and claimed in
C2): each variable whose `dependencyRef` names a resolved dependency in
the parent's namespace is replaced in place by the `valueFrom` form; every
other variable is kept unchanged. -/
def setVariablesFromDependenciesSpec (dependencies : List Terraform) (t : Terraform) :
    Terraform :=
  if dependencies.isEmpty then t
  else
    let rewritten := t.spec.variablesArr.map (fun v =>
      match v.dependencyRef with
      | none => v
      | some ref =>
        match dependencies.find? (fun d => d.name = ref.name ∧ d.namespaceRef = t.namespaceRef) with
        | none => v
        | some dep =>
          { key := v.key, value := "", valueFrom := some ⟨dep.status.outputSecretName, ref.key⟩,
            environmentVariable := false, dependencyRef := some ref })
    { t with spec := { t.spec with variablesArr := rewritten } }

/-! ## Cluster world and operations (internal/terraform/operations.go)

Cluster effects are modelled by oracles: object stores for runs and Jobs,
and one outcome field per create/update/delete call the reconciler can
issue (`none` = the call succeeded, `some e` = it failed with `e`).
`statusWriteErr` gives the outcome of the status-subresource update for
each target status, `now` the wall-clock string `time.Now().Format(UnixDate)`
would produce, and `runIdGen` the randomness consumed by `SetRunID`. -/

/-- A `batchv1.Job` restricted to the fields the watch loop reads. -/
structure JobR where
  name : String
  namespaceRef : String
  active : Nat
  succeeded : Nat
  failed : Nat
deriving DecidableEq, Repr

structure World where
  store : List Terraform
  jobs : List JobR
  now : String
  runIdGen : Nat → Fin 35
  statusWriteErr : TerraformRunStatus → Option KErr
  metaUpdateErr : Option KErr
  saGet : Except KErr Unit
  saCreate : Option KErr
  rbGet : Except KErr Unit
  rbCreate : Option KErr
  cmCreate : Option KErr
  secretGet : Except KErr Unit
  secretCreate : Option KErr
  jobCreate : Option KErr
  jobDelete : Option KErr
  cmGet : Except KErr Unit
  cmDelete : Option KErr

/-- `isServiceAccountExist` / `isRoleBindingExist`: a successful `Get`
reports present, `NotFound` reports absent, any other error propagates. -/
def isObjectExist (get : Except KErr Unit) : Except KErr Bool :=
  match get with
  | .ok _ => .ok true
  | .error .notFound => .ok false
  | .error e => .error e

/-- `createRbacConfigIfNotExist` (operations.go): check-then-create of the
shared `terraform-runner` ServiceAccount, then of the RoleBinding.  Any
error of the existence checks or of the `Create` calls — including
`AlreadyExists` — is returned. -/
def createRbacConfigIfNotExist (w : World) : Option KErr :=
  match isObjectExist w.saGet with
  | .error e => some e
  | .ok saExist =>
    match (if saExist then none else w.saCreate) with
    | some e => some e
    | none =>
      match isObjectExist w.rbGet with
      | .error e => some e
      | .ok rbExist =>
        if rbExist then none else w.rbCreate

/-- `createSecretForOutputs`: `Get` the output secret; reuse it when
present, create it on `NotFound`, propagate any other error. -/
def createSecretForOutputs (w : World) : Option KErr :=
  match w.secretGet with
  | .ok _ => none
  | .error .notFound => w.secretCreate
  | .error e => some e

/-- `GetJobForRun`: `Get` of the Job named
`getUniqueResourceName(name, runID)` in the run's namespace. -/
def getJobForRun (w : World) (t : Terraform) (runID : String) : Except KErr JobR :=
  match w.jobs.find? (fun j =>
      j.namespaceRef = t.namespaceRef ∧ j.name = getUniqueResourceName t.name runID) with
  | some j => .ok j
  | none => .error .notFound

/-- `deleteJobByRun`: fetch the Job for `runID`, then `Delete` it with
foreground propagation; a failed fetch propagates its error. -/
def deleteJobByRun (w : World) (t : Terraform) (runID : String) : Option KErr :=
  match getJobForRun w t runID with
  | .error e => some e
  | .ok _ => w.jobDelete

/-- `deleteConfigMapByRun`: fetch the module ConfigMap for `runID`, then
`Delete` it with foreground propagation. -/
def deleteConfigMapByRun (w : World) : Option KErr :=
  match w.cmGet with
  | .error e => some e
  | .ok _ => w.cmDelete

/-- `DeleteAfterCompletion`: delete the Job of the *current* run id. -/
def deleteAfterCompletion (w : World) (t : Terraform) : Option KErr :=
  deleteJobByRun w t t.status.runID

/-- `CleanupResources`: nothing to do without a previous run id; otherwise
delete the previous Job and module ConfigMap, swallowing `NotFound`. -/
def cleanupResources (w : World) (t : Terraform) : Option KErr :=
  if t.status.previousRunID = "" then none
  else
    match deleteJobByRun w t t.status.previousRunID with
    | some e => if e ≠ .notFound then some e else
        match deleteConfigMapByRun w with
        | some e2 => if e2 ≠ .notFound then some e2 else none
        | none => none
    | none =>
        match deleteConfigMapByRun w with
        | some e2 => if e2 ≠ .notFound then some e2 else none
        | none => none

/-- `CreateTerraformRun` (operations.go): allocate a fresh run id, ensure
the RBAC objects, create the module ConfigMap, create-or-reuse the output
Secret, create the runner Job.  The first failing step aborts. -/
def createTerraformRun (w : World) (t : Terraform) : Terraform × Option KErr :=
  let t1 := setRunIDWith w.runIdGen t
  match createRbacConfigIfNotExist w with
  | some e => (t1, some e)
  | none =>
    match w.cmCreate with
    | some e => (t1, some e)
    | none =>
      match createSecretForOutputs w with
      | some e => (t1, some e)
      | none =>
        match w.jobCreate with
        | some e => (t1, some e)
        | none => (t1, none)

/-! ## Status writer and state machine (terraform_controller.go) -/

/-- `updateRunStatus`: set `runStatus` and `observedGeneration`; on
`Started` stamp `startedTime` and `outputSecretName`; on `Completed` or
`Failed` stamp `completionTime`; then commit the status subresource.  The
returned option is the outcome of the `Status().Update` call. -/
def updateRunStatus (w : World) (status : TerraformRunStatus) (t : Terraform) :
    Terraform × Option KErr :=
  let st1 := { t.status with runStatus := status, observedGeneration := t.generation }
  let st2 := if status = .started then
      { st1 with startedTime := w.now, outputSecretName := getOutputSecretName t.name }
    else st1
  let st3 := if status = .completed ∨ status = .failed then
      { st2 with completionTime := w.now }
    else st2
  ({ t with status := st3 }, w.statusWriteErr status)

/-- Events emitted through the recorder, by reason. -/
inductive EventReason where
  | addedFinalizer
  | createdEv
  | updatedEv
  | waitingEv
  | runningEv
  | completedEv
  | destroyedEv
  | cleanupEv
  | failedEv
deriving DecidableEq, Repr

/-- The observable outcome of one reconciliation (or of one handler):
the run object as left in memory (equal to the cluster copy whenever the
recorded status write succeeded), the status writes attempted (target
status paired with the write outcome), the events emitted, whether a Job
delete was attempted for the completed run, the `RequeueAfter` of the
returned `ctrl.Result` (0 = none) and the returned error. -/
structure RecOut where
  run : Terraform
  writes : List (TerraformRunStatus × Option KErr)
  events : List EventReason
  jobDeleteAttempted : Bool
  requeueAfter : Nat
  err : Option KErr
deriving Repr

/-- Reconciler options: the two requeue intervals. -/
structure Cfg where
  requeueDependency : Nat
  requeueJobWatch : Nat
deriving DecidableEq, Repr

/-- `handleRunCreate` (terraform_controller.go, dependency gate first):
on a dependency-resolution failure, a run already in
`WaitingForDependency` is requeued after `requeueDependency` with no
status write; otherwise a `Waiting` event is emitted, the run is moved to
`WaitingForDependency`, and the status-write outcome is returned together
with the `requeueDependency` requeue.  On success the variables are
rewritten from the dependencies, the run resources are created (failure →
`Failed` status write, error returned), old resources are cleaned up
best-effort, and the run is moved to `Started`. -/
def handleRunCreate (cfg : Cfg) (w : World) (t : Terraform) : RecOut :=
  match checkDependencies w.store t with
  | .error _ =>
    if isWaiting t then
      { run := t, writes := [], events := [], jobDeleteAttempted := false,
        requeueAfter := cfg.requeueDependency, err := none }
    else
      let p := updateRunStatus w .waitingForDependency t
      { run := p.1, writes := [(.waitingForDependency, p.2)], events := [.waitingEv],
        jobDeleteAttempted := false, requeueAfter := cfg.requeueDependency, err := p.2 }
  | .ok dependencies =>
    let t1 := setVariablesFromDependencies dependencies t
    let c := createTerraformRun w t1
    match c.2 with
    | some e =>
      let p := updateRunStatus w .failed c.1
      { run := p.1, writes := [(.failed, p.2)], events := [],
        jobDeleteAttempted := false, requeueAfter := 0, err := some e }
    | none =>
      -- `CleanupResources` runs here in the source; its outcome is only logged.
      let _cl := cleanupResources w c.1
      let p := updateRunStatus w .started c.1
      { run := p.1, writes := [(.started, p.2)], events := [],
        jobDeleteAttempted := false, requeueAfter := 0, err := p.2 }

/-- `handleRunJobWatch`: load the Job for the current run id (missing →
error); `active > 0` → ensure `Running`; else `succeeded > 0` → optionally
delete the Job (`deleteCompletedJobs`), emit `Destroyed`/`Completed` by
`spec.destroy`, move to `Completed`; else `failed > 0` → emit `Failed`,
move to `Failed`; else requeue after `requeueJobWatch`. -/
def handleRunJobWatch (cfg : Cfg) (w : World) (t : Terraform) : RecOut :=
  match getJobForRun w t t.status.runID with
  | .error e =>
    { run := t, writes := [], events := [], jobDeleteAttempted := false,
      requeueAfter := 0, err := some e }
  | .ok job =>
    if 0 < job.active then
      if isRunning t then
        { run := t, writes := [], events := [], jobDeleteAttempted := false,
          requeueAfter := cfg.requeueJobWatch, err := none }
      else
        let p := updateRunStatus w .running t
        { run := p.1, writes := [(.running, p.2)], events := [.runningEv],
          jobDeleteAttempted := false, requeueAfter := 0, err := p.2 }
    else if 0 < job.succeeded then
      let delOutcome : Option (Option KErr) :=
        if t.spec.deleteCompletedJobs then some (deleteAfterCompletion w t) else none
      let cleanupEvents : List EventReason :=
        match delOutcome with
        | some none => [.cleanupEv]
        | _ => []
      let finishEvent : EventReason := if t.spec.destroy then .destroyedEv else .completedEv
      let p := updateRunStatus w .completed t
      { run := p.1, writes := [(.completed, p.2)], events := cleanupEvents ++ [finishEvent],
        jobDeleteAttempted := t.spec.deleteCompletedJobs, requeueAfter := 0, err := p.2 }
    else if 0 < job.failed then
      let p := updateRunStatus w .failed t
      { run := p.1, writes := [(.failed, p.2)], events := [.failedEv],
        jobDeleteAttempted := false, requeueAfter := 0, err := p.2 }
    else
      { run := t, writes := [], events := [], jobDeleteAttempted := false,
        requeueAfter := cfg.requeueJobWatch, err := none }

/-- `handleRunDelete`: record the `Deleted` metric, strip the finalizer,
commit the metadata update.  No status write. -/
def handleRunDelete (w : World) (t : Terraform) : RecOut :=
  let t1 := { t with finalizers := t.finalizers.filter (fun f => f ≠ TerraformFinalizer) }
  { run := t1, writes := [], events := [], jobDeleteAttempted := false,
    requeueAfter := 0, err := w.metaUpdateErr }

/-- `Reconcile` for a loaded run: register the finalizer first; route a
deleting run to `handleRunDelete`; a submitted or waiting run to
`handleRunCreate` (emitting `Created` and the total metric on success); a
started or running run to `handleRunJobWatch`; an updated run to
`handleRunUpdate` (the `Updated` event then `handleRunCreate`); otherwise
do nothing.  A handler error is returned with an empty `ctrl.Result`. -/
def reconcile (cfg : Cfg) (w : World) (t : Terraform) : RecOut :=
  if TerraformFinalizer ∈ t.finalizers then
    if t.hasDeletionTimestamp then handleRunDelete w t
    else if isSubmitted t || isWaiting t then
      let o := handleRunCreate cfg w t
      match o.err with
      | some _ => { o with requeueAfter := 0 }
      | none => { o with events := o.events ++ [.createdEv] }
    else if isStarted t then
      let o := handleRunJobWatch cfg w t
      match o.err with
      | some _ => { o with requeueAfter := 0 }
      | none => o
    else if isUpdated t then
      let o := handleRunCreate cfg w t
      match o.err with
      | some _ => { o with requeueAfter := 0, events := .updatedEv :: o.events }
      | none => { o with events := .updatedEv :: o.events }
    else
      { run := t, writes := [], events := [], jobDeleteAttempted := false,
        requeueAfter := 0, err := none }
  else
    let t1 := { t with finalizers := t.finalizers ++ [TerraformFinalizer] }
    match w.metaUpdateErr with
    | some e =>
      { run := t1, writes := [], events := [], jobDeleteAttempted := false,
        requeueAfter := 0, err := some e }
    | none =>
      { run := t1, writes := [], events := [.addedFinalizer], jobDeleteAttempted := false,
        requeueAfter := 0, err := none }

/-- `GetConfigMapSpecForModule` (terraform_configmaps.go): the module
ConfigMap's single data entry `"main.tf"` is the rendered template of the
run's spec.  Neither it nor any caller on the `CreateTerraformRun` path
invokes `setBackendCfgIfNotExist` first. -/
def getConfigMapDataMainTf (t : Terraform) : String :=
  getTerraformModuleFromTemplate t.spec

/-! ## Substring search helper (for concrete template evaluations) -/

/-- `s` begins with `p` (character lists). -/
def startsWithL : List Char → List Char → Bool
  | _, [] => true
  | [], _ :: _ => false
  | a :: as, b :: bs => a = b && startsWithL as bs

/-- `p` occurs contiguously inside `s` (character lists). -/
def hasSubL (p : List Char) : List Char → Bool
  | [] => p.isEmpty
  | c :: rest => startsWithL (c :: rest) p || hasSubL p rest

/-- `pat` occurs as a contiguous substring of `s`. -/
def strContains (s pat : String) : Bool := hasSubL pat.data s.data

/-! ## Concrete sample data shared by witnesses and counterexamples -/

/-- A minimal spec: version 1.0.2, the module of the repository's renderer
unit test, one non-environment variable. -/
def specMin : TerraformSpec :=
  { terraformVersion := "1.0.2",
    module := { source := "IbraheemAlSaady/test/module", version := "0.0.1" },
    backend := "", providersConfig := "", workspace := "", dependsOn := [],
    variablesArr := #[{ key := "length", value := "16", valueFrom := none,
                        environmentVariable := false, dependencyRef := none }],
    outputs := [], destroy := false, deleteCompletedJobs := false, retryLimit := 0 }

/-- An empty, all-zero status (Go zero values). -/
def statusZero : TerraformStatus :=
  { runID := "", previousRunID := "", outputSecretName := "", observedGeneration := 0,
    runStatus := .unset, message := "", startedTime := "", completionTime := "" }

/-- A completed dependency run `d` in namespace `default` whose outputs
live in secret `d-outputs`. -/
def depD : Terraform :=
  { name := "d", namespaceRef := "default", generation := 1,
    hasDeletionTimestamp := false, finalizers := [TerraformFinalizer], spec := specMin,
    status := { statusZero with
                runID := "aaaaaa"
                outputSecretName := "d-outputs"
                observedGeneration := 1
                runStatus := .completed } }

/-- Variable `a`: a plain literal variable with no dependency reference. -/
def varA : Variable :=
  { key := "a", value := "1", valueFrom := none, environmentVariable := false,
    dependencyRef := none }

/-- Variable `b`: carries `dependencyRef{name: d, key: k}`. -/
def varB : Variable :=
  { key := "b", value := "", valueFrom := none, environmentVariable := false,
    dependencyRef := some ⟨"d", "k"⟩ }

/-- Variable `b` after the rewrite: same key and ref, `valueFrom` pointing
at key `k` of secret `d-outputs`. -/
def varBRewritten : Variable :=
  { key := "b", value := "", valueFrom := some ⟨"d-outputs", "k"⟩,
    environmentVariable := false, dependencyRef := some ⟨"d", "k"⟩ }

/-- The parent run: variables `[a, b]`, same namespace as `d`. -/
def runAB : Terraform :=
  { depD with
    name := "r"
    spec := { specMin with variablesArr := #[varA, varB] } }

/-- A fixed index stream for the run-id generator. -/
def genW : Nat → Fin 35 := fun i => ⟨i % 35, Nat.mod_lt i (by omega)⟩

/-- A benign world: empty stores, every cluster call succeeds. -/
def wBase : World :=
  { store := [], jobs := [], now := "NOW", runIdGen := genW,
    statusWriteErr := fun _ => none, metaUpdateErr := none,
    saGet := .ok (), saCreate := none, rbGet := .ok (), rbCreate := none,
    cmCreate := none, secretGet := .ok (), secretCreate := none,
    jobCreate := none, jobDelete := none, cmGet := .ok (), cmDelete := none }

/-- A run named `foo` in `default` with an empty `spec.backend`. -/
def runFoo : Terraform :=
  { name := "foo", namespaceRef := "default", generation := 1,
    hasDeletionTimestamp := false, finalizers := [TerraformFinalizer],
    spec := specMin, status := statusZero }

/-- The world of the C9 race: the ServiceAccount existence check reports
absent, but the subsequent `Create` fails with `AlreadyExists` (the object
was created in between). -/
def w9 : World :=
  { wBase with saGet := .error .notFound, saCreate := some .alreadyExists }

/-! ## Theorems -/

/-- Sanity anchor for the template embedding: on the spec of the
repository's renderer unit test the embedded renderer reproduces the
test's expected `main.tf` byte for byte. -/
theorem getTerraformModuleFromTemplate_matches_unit_test :
    getTerraformModuleFromTemplate specMin =
      "terraform \x7b\n\t\n\t\trequired_version = \"~> 1.0.2\"\n\t\x7d\n\tvariable \"length\" \x7b\x7d\n\t\n\t## additional-blocks\n\t\n\tmodule \"operator\" \x7b\n\t\tsource = \"IbraheemAlSaady/test/module\"\n\t\tversion = \"0.0.1\"\n\t\tlength = var.length\n\t\x7d" := by
  rfl

/-- Every index below 35 selects a character of the alphabet. -/
theorem runIdAlphabet_getD_mem : ∀ k, k < 35 → runIdAlphabet.getD k 'a' ∈ runIdAlphabet := by
  decide

/-- The digit 8 is not in the run-id alphabet. -/
theorem runIdAlphabet_no_eight : ∀ c ∈ runIdAlphabet, c ≠ '8' := by
  decide

/-- C10: every run id produced by `SetRunID` is a 6-character string over
the fixed 35-character alphabet `abcdefghijklmnopqrstuvwxyz123456790`; in
particular the digit 8 can never occur in a run id. -/
theorem setRunID_shape (gen : Nat → Fin 35) (t : Terraform) :
    ((setRunIDWith gen t).status.runID).length = 6 ∧
    ∀ c ∈ ((setRunIDWith gen t).status.runID).data, c ∈ runIdAlphabet ∧ c ≠ '8' := by
  constructor
  · simp [setRunIDWith, randomString, String.length]
  · intro c hc
    simp only [setRunIDWith, randomString] at hc
    obtain ⟨i, _, rfl⟩ := List.mem_map.mp hc
    have hmem := runIdAlphabet_getD_mem (gen i).val (gen i).isLt
    exact ⟨hmem, runIdAlphabet_no_eight _ hmem⟩

/-- Witness for C10 at a concrete generator and run. -/
theorem setRunID_shape_witness :
    ((setRunIDWith genW runFoo).status.runID).length = 6 ∧
    '8' ∉ ((setRunIDWith genW runFoo).status.runID).data := by
  obtain ⟨h1, h2⟩ := setRunID_shape genW runFoo
  exact ⟨h1, fun hmem => (h2 '8' hmem).2 rfl⟩

/-- C5: a status transition committed by `updateRunStatus` with target `S`
sets `runStatus := S` and `observedGeneration := generation`; on `Started`
it stamps `startedTime` (with the `time.Now()` Unix-date string) and sets
`outputSecretName := truncate(name,220) ++ "-outputs"`; on `Completed` or
`Failed` it stamps `completionTime`; for any other target the three
stamped fields are left unchanged. -/
theorem updateRunStatus_spec
    (w : World) (S : TerraformRunStatus) (t : Terraform) :
    (updateRunStatus w S t).1.status.runStatus = S
    ∧ (updateRunStatus w S t).1.status.observedGeneration = t.generation
    ∧ (updateRunStatus w S t).1.generation = t.generation
    ∧ (S = .started →
        (updateRunStatus w S t).1.status.startedTime = w.now
        ∧ (updateRunStatus w S t).1.status.outputSecretName
            = truncateResourceName t.name 220 ++ "-outputs")
    ∧ ((S = .completed ∨ S = .failed) →
        (updateRunStatus w S t).1.status.completionTime = w.now)
    ∧ (S ≠ .started →
        (updateRunStatus w S t).1.status.startedTime = t.status.startedTime
        ∧ (updateRunStatus w S t).1.status.outputSecretName = t.status.outputSecretName)
    ∧ (¬(S = .completed ∨ S = .failed) →
        (updateRunStatus w S t).1.status.completionTime = t.status.completionTime) := by
  cases S <;> simp [updateRunStatus, getOutputSecretName]

/-- Witness for C5: the `Started` and `Completed` transitions at a
concrete run. -/
theorem updateRunStatus_spec_witness :
    (updateRunStatus wBase .started runFoo).1.status.outputSecretName = "foo-outputs"
    ∧ (updateRunStatus wBase .started runFoo).1.status.startedTime = "NOW"
    ∧ (updateRunStatus wBase .completed runFoo).1.status.completionTime = "NOW"
    ∧ (updateRunStatus wBase .completed runFoo).1.status.startedTime
        = runFoo.status.startedTime := by
  obtain ⟨_, _, _, hst, _, _, _⟩ := updateRunStatus_spec wBase .started runFoo
  obtain ⟨_, _, _, _, hco, hns, _⟩ := updateRunStatus_spec wBase .completed runFoo
  obtain ⟨h1, h2⟩ := hst rfl
  refine ⟨h2.trans (by decide), h1, hco (Or.inl rfl), (hns (by decide)).1⟩

/-- C2 (code bug): `SetVariablesFromDependencies` rewrites the variables
list using the *dependency* index as the variable-slice index of the
remove-then-append.  On the run `runAB` with variables `[a, b]` (only `b`
references dependency `d`) the rewrite deletes `a`, keeps the original
`b`, and appends the rewritten `b` — instead of the intended
`[a, b-rewritten]` (the one-pass rewrite `setVariablesFromDependenciesSpec`
built from the specification's words). -/
theorem setVariablesFromDependencies_stale_index_bug :
    (setVariablesFromDependencies [depD] runAB).spec.variablesArr = #[varB, varBRewritten]
    ∧ (setVariablesFromDependenciesSpec [depD] runAB).spec.variablesArr = #[varA, varBRewritten]
    ∧ varA ∉ ((setVariablesFromDependencies [depD] runAB).spec.variablesArr).toList := by
  refine ⟨by decide, by decide, by decide⟩

/-- C8 (code bug): on the `CreateTerraformRun` path the module ConfigMap's
`main.tf` is rendered without ever calling `setBackendCfgIfNotExist`, so a
run with an unset `spec.backend` gets *no* backend stanza at all; applying
the (dead) defaulting function first is exactly what would produce the
claimed `backend "kubernetes"` stanza, and a non-empty `spec.backend` is
inlined verbatim. -/
theorem moduleConfigMap_missing_default_backend :
    runFoo.spec.backend = ""
    ∧ strContains (getConfigMapDataMainTf runFoo) "backend \"kubernetes\"" = false
    ∧ strContains (getConfigMapDataMainTf (setBackendCfgIfNotExist runFoo))
        "backend \"kubernetes\" \x7b\n  secret_suffix     = \"foo\"\n  in_cluster_config = true\n  namespace         = \"default\"\n\x7d" = true
    ∧ strContains
        (getConfigMapDataMainTf
          { runFoo with spec := { specMin with backend := "backend \"s3\" \x7bmarker\x7d" } })
        "backend \"s3\" \x7bmarker\x7d" = true := by
  refine ⟨rfl, by decide, by decide, by decide⟩

/-- C9 counterexample: in the race world `w9` (existence check `NotFound`,
`Create` answers `AlreadyExists`) `createRbacConfigIfNotExist` does *not*
treat `AlreadyExists` as success — it returns the error. -/
theorem createRbacConfigIfNotExist_alreadyExists_is_error :
    createRbacConfigIfNotExist w9 = some KErr.alreadyExists
    ∧ ¬ createRbacConfigIfNotExist w9 = none := by
  refine ⟨by decide, by decide⟩

/-- C9 (amended): when the ServiceAccount existence check reports absent
and the subsequent `Create` fails — with `AlreadyExists` or any other
error — `createRbacConfigIfNotExist` returns that error and
`CreateTerraformRun` aborts with it. -/
theorem createRbacConfigIfNotExist_propagates_create_error
    (w : World) (t : Terraform) (e : KErr)
    (h1 : w.saGet = .error .notFound) (h2 : w.saCreate = some e) :
    createRbacConfigIfNotExist w = some e
    ∧ (createTerraformRun w t).2 = some e := by
  have hr : createRbacConfigIfNotExist w = some e := by
    simp [createRbacConfigIfNotExist, isObjectExist, h1, h2]
  exact ⟨hr, by simp [createTerraformRun, hr]⟩

/-- Witness for the amended C9 at the concrete race world. -/
theorem createRbacConfigIfNotExist_propagates_create_error_witness :
    createRbacConfigIfNotExist w9 = some KErr.alreadyExists
    ∧ (createTerraformRun w9 runFoo).2 = some KErr.alreadyExists :=
  createRbacConfigIfNotExist_propagates_create_error w9 runFoo .alreadyExists rfl rfl

/-- The per-entry readiness test of `depsAllReady`, split out for the
induction. -/
def depEntryReady (store : List Terraform) (parentNs : String) (d : DependsOn) : Bool :=
  match getRun store (defaultedNamespace parentNs d) d.name with
  | .ok dep => depReady dep
  | .error _ => false

theorem depsAllReady_eq_all (store : List Terraform) (t : Terraform) :
    depsAllReady store t = t.spec.dependsOn.all (depEntryReady store t.namespaceRef) := rfl

theorem checkDependenciesAux_ok_of_all_ready
    (store : List Terraform) (ns : String) (l : List DependsOn)
    (h : l.all (depEntryReady store ns) = true) :
    checkDependenciesAux store ns l
      = .ok (l.filterMap (fun d => (getRun store (defaultedNamespace ns d) d.name).toOption)) := by
  induction l with
  | nil => simp [checkDependenciesAux]
  | cons d rest ih =>
    rw [List.all_cons, Bool.and_eq_true] at h
    obtain ⟨h1, h2⟩ := h
    unfold depEntryReady at h1
    cases hget : getRun store (defaultedNamespace ns d) d.name with
    | error e => rw [hget] at h1; simp at h1
    | ok dep =>
      rw [hget] at h1
      have hready : dep.generation = dep.status.observedGeneration
          ∧ dep.status.runStatus = .completed := by
        simpa [depReady] using h1
      simp [checkDependenciesAux, hget, hready.1, hready.2, ih h2, Except.toOption]

theorem checkDependenciesAux_error_of_not_all_ready
    (store : List Terraform) (ns : String) (l : List DependsOn)
    (h : l.all (depEntryReady store ns) = false) :
    ∃ e, checkDependenciesAux store ns l = .error e := by
  induction l with
  | nil => simp at h
  | cons d rest ih =>
    rw [List.all_cons, Bool.and_eq_false_iff] at h
    cases hget : getRun store (defaultedNamespace ns d) d.name with
    | error e => exact ⟨.getFailed e, by simp [checkDependenciesAux, hget]⟩
    | ok dep =>
      rcases h with h1 | h2
      · rw [depEntryReady, hget] at h1
        have : ¬(dep.generation = dep.status.observedGeneration
            ∧ dep.status.runStatus = .completed) := by
          simpa [depReady] using h1
        by_cases hg : dep.generation = dep.status.observedGeneration
        · have hst : dep.status.runStatus ≠ .completed := fun hc => this ⟨hg, hc⟩
          exact ⟨.notReady, by simp [checkDependenciesAux, hget, hg, hst]⟩
        · exact ⟨.notReady, by simp [checkDependenciesAux, hget, hg]⟩
      · obtain ⟨e, he⟩ := ih h2
        by_cases hg : dep.generation = dep.status.observedGeneration
        · by_cases hst : dep.status.runStatus = .completed
          · exact ⟨e, by simp [checkDependenciesAux, hget, hg, hst, he]⟩
          · exact ⟨.notReady, by simp [checkDependenciesAux, hget, hg, hst]⟩
        · exact ⟨.notReady, by simp [checkDependenciesAux, hget, hg]⟩

/-- C1: `checkDependencies` succeeds — returning the full, in-order list
of the referenced runs — exactly when every `dependsOn` entry (namespace
defaulted to the parent's) resolves to an existing run with
`generation == observedGeneration` and `runStatus == Completed`; if any
referenced run is missing or fails either condition it returns an error. -/
theorem checkDependencies_ok_iff_all_ready (store : List Terraform) (t : Terraform) :
    (depsAllReady store t = true →
        checkDependencies store t = .ok (referencedRuns store t))
    ∧ (depsAllReady store t = false →
        ∃ e, checkDependencies store t = .error e) := by
  rw [depsAllReady_eq_all]
  exact ⟨fun h => checkDependenciesAux_ok_of_all_ready store t.namespaceRef t.spec.dependsOn h,
         fun h => checkDependenciesAux_error_of_not_all_ready store t.namespaceRef t.spec.dependsOn h⟩

/-- The parent run of the C1/C3 witnesses: depends on run `d` with the
entry's namespace left empty (defaulted to the parent's `default`). -/
def runB : Terraform :=
  { runFoo with
    name := "b"
    spec := { specMin with dependsOn := [⟨"d", ""⟩] } }

/-- Witness for C1: with `d` completed and observed, resolution returns
`[d]`; with an empty store it returns an error. -/
theorem checkDependencies_ok_iff_all_ready_witness :
    checkDependencies [depD] runB = .ok (referencedRuns [depD] runB)
    ∧ (∃ e, checkDependencies [] runB = .error e) :=
  ⟨(checkDependencies_ok_iff_all_ready [depD] runB).1 (by decide),
   (checkDependencies_ok_iff_all_ready [] runB).2 (by decide)⟩

/-- C3: when dependency resolution fails inside `handleRunCreate`, a run
already in `WaitingForDependency` is requeued after `requeueDependency`
with no status write, no event and no error; any other run gets a
`Waiting` event, a status write moving it to `WaitingForDependency`, the
`requeueDependency` requeue, and the outcome of that status write as the
returned error (which `Reconcile` hands to the framework unchanged). -/
theorem handleRunCreate_dependency_failure
    (cfg : Cfg) (w : World) (t : Terraform) (e : DepErr)
    (hdep : checkDependencies w.store t = .error e) :
    (isWaiting t = true →
        handleRunCreate cfg w t =
          { run := t, writes := [], events := [], jobDeleteAttempted := false,
            requeueAfter := cfg.requeueDependency, err := none })
    ∧ (isWaiting t = false →
        (handleRunCreate cfg w t).events = [.waitingEv]
        ∧ (handleRunCreate cfg w t).writes
            = [(.waitingForDependency, w.statusWriteErr .waitingForDependency)]
        ∧ (handleRunCreate cfg w t).run.status.runStatus = .waitingForDependency
        ∧ (handleRunCreate cfg w t).requeueAfter = cfg.requeueDependency
        ∧ (handleRunCreate cfg w t).err = w.statusWriteErr .waitingForDependency) := by
  constructor <;> intro hw <;> simp [handleRunCreate, hdep, hw, updateRunStatus]

/-- A world for the C3 witness: no runs stored (so `runB`'s dependency
lookup fails) and a status-write failure for the `WaitingForDependency`
commit. -/
def wWriteFail : World :=
  { wBase with statusWriteErr := fun s => if s = .waitingForDependency then some .other else none }

/-- `runB` already waiting on its dependency. -/
def runBWaiting : Terraform :=
  { runB with status := { statusZero with runStatus := .waitingForDependency } }

/-- A sample reconciler configuration. -/
def cfgW : Cfg := { requeueDependency := 7, requeueJobWatch := 11 }

/-- Witness for C3: the waiting run is requeued untouched; the fresh run
is moved to `WaitingForDependency` and the failed status write's error is
returned. -/
theorem handleRunCreate_dependency_failure_witness :
    handleRunCreate cfgW wWriteFail runBWaiting =
      { run := runBWaiting, writes := [], events := [], jobDeleteAttempted := false,
        requeueAfter := cfgW.requeueDependency, err := none }
    ∧ (handleRunCreate cfgW wWriteFail runB).err = some KErr.other :=
  ⟨(handleRunCreate_dependency_failure cfgW wWriteFail runBWaiting (.getFailed .notFound)
      (by rfl)).1 (by decide),
   by
    have h := (handleRunCreate_dependency_failure cfgW wWriteFail runB (.getFailed .notFound)
      (by rfl)).2 (by decide)
    exact h.2.2.2.2.trans (by decide)⟩

/-- A run named `foo` whose current attempt is `aaaaaa`, in `Started`. -/
def runStartedFoo : Terraform :=
  { runFoo with status := { statusZero with runID := "aaaaaa", runStatus := .started } }

/-- The Job of attempt `aaaaaa` reporting one active and one succeeded
pod simultaneously (a parallel Job can report both). -/
def jobActiveSucceeded : JobR :=
  { name := "foo-aaaaaa", namespaceRef := "default", active := 1, succeeded := 1, failed := 0 }

/-- A world holding `jobActiveSucceeded`. -/
def w4 : World := { wBase with jobs := [jobActiveSucceeded] }

/-- C4 counterexample: the branches of `handleRunJobWatch` are tested in
order `active`, `succeeded`, `failed`, so a Job reporting
`succeeded > 0` while also `active > 0` is handled by the *active* branch:
the Started run moves to `Running`, not to `Completed`. -/
theorem handleRunJobWatch_succeeded_while_active_not_completed :
    isStarted runStartedFoo = true
    ∧ getJobForRun w4 runStartedFoo runStartedFoo.status.runID = .ok jobActiveSucceeded
    ∧ 0 < jobActiveSucceeded.succeeded
    ∧ (handleRunJobWatch cfgW w4 runStartedFoo).run.status.runStatus = .running
    ∧ ¬ (handleRunJobWatch cfgW w4 runStartedFoo).run.status.runStatus = .completed := by
  refine ⟨by decide, by rfl, by decide, by rfl, by decide⟩

/-- C4 (amended: the Job additionally reports `active == 0`): for a run in
`Started` or `Running` whose Job for the current run id reports
`succeeded > 0` and `active == 0`, `handleRunJobWatch` moves the run to
`Completed` and stamps `completionTime`; a Job deletion is attempted
exactly when `spec.deleteCompletedJobs` is set (the conclusion holds for
every deletion outcome, so a failed deletion cannot prevent the
transition); the terminal event is `Destroyed` when `spec.destroy` is set
and `Completed` otherwise. -/
theorem handleRunJobWatch_succeeded_completes
    (cfg : Cfg) (w : World) (t : Terraform) (job : JobR)
    (hs : isStarted t = true)
    (hj : getJobForRun w t t.status.runID = .ok job)
    (hsuc : 0 < job.succeeded) (hact : job.active = 0) :
    (handleRunJobWatch cfg w t).run.status.runStatus = .completed
    ∧ (handleRunJobWatch cfg w t).run.status.completionTime = w.now
    ∧ (handleRunJobWatch cfg w t).jobDeleteAttempted = t.spec.deleteCompletedJobs
    ∧ (t.spec.destroy = true →
        .destroyedEv ∈ (handleRunJobWatch cfg w t).events
        ∧ .completedEv ∉ (handleRunJobWatch cfg w t).events)
    ∧ (t.spec.destroy = false →
        .completedEv ∈ (handleRunJobWatch cfg w t).events
        ∧ .destroyedEv ∉ (handleRunJobWatch cfg w t).events) := by
  have hact2 : ¬ 0 < job.active := by omega
  cases hdel : deleteAfterCompletion w t <;>
    cases hcj : t.spec.deleteCompletedJobs <;>
      cases hd : t.spec.destroy <;>
        simp [handleRunJobWatch, hj, hact2, hsuc, hdel, hcj, hd, updateRunStatus]

/-- The Job of attempt `aaaaaa` after success: no active pods. -/
def jobSucceeded : JobR :=
  { name := "foo-aaaaaa", namespaceRef := "default", active := 0, succeeded := 1, failed := 0 }

/-- `runStartedFoo` with `deleteCompletedJobs` set. -/
def runStartedFooDel : Terraform :=
  { runStartedFoo with spec := { specMin with deleteCompletedJobs := true } }

/-- A world holding `jobSucceeded`, whose Job `Delete` call fails. -/
def w5 : World := { wBase with jobs := [jobSucceeded], jobDelete := some .other }

/-- Witness for the amended C4: the successful Job completes the run, the
deletion is attempted (and its failure does not block the transition), and
the `Completed` event is emitted. -/
theorem handleRunJobWatch_succeeded_completes_witness :
    (handleRunJobWatch cfgW w5 runStartedFooDel).run.status.runStatus = .completed
    ∧ (handleRunJobWatch cfgW w5 runStartedFooDel).run.status.completionTime = "NOW"
    ∧ (handleRunJobWatch cfgW w5 runStartedFooDel).jobDeleteAttempted = true
    ∧ .completedEv ∈ (handleRunJobWatch cfgW w5 runStartedFooDel).events := by
  have h := handleRunJobWatch_succeeded_completes cfgW w5 runStartedFooDel jobSucceeded
    (by decide) (by rfl) (by decide) (by decide)
  exact ⟨h.1, h.2.1, h.2.2.1.trans (by decide), (h.2.2.2.2 (by decide)).1⟩

/-! ### C6: observedGeneration never exceeds generation -/

theorem updateRunStatus_gen (w : World) (S : TerraformRunStatus) (t : Terraform) :
    (updateRunStatus w S t).1.generation = t.generation := by
  cases S <;> simp [updateRunStatus]

theorem updateRunStatus_obsGen (w : World) (S : TerraformRunStatus) (t : Terraform) :
    (updateRunStatus w S t).1.status.observedGeneration = t.generation := by
  cases S <;> simp [updateRunStatus]

theorem setVariablesFromDependencies_gen (deps : List Terraform) (t : Terraform) :
    (setVariablesFromDependencies deps t).generation = t.generation
    ∧ (setVariablesFromDependencies deps t).status = t.status := by
  unfold setVariablesFromDependencies
  split <;> exact ⟨rfl, rfl⟩

theorem setRunIDWith_gen (gen : Nat → Fin 35) (t : Terraform) :
    (setRunIDWith gen t).generation = t.generation
    ∧ (setRunIDWith gen t).status.observedGeneration = t.status.observedGeneration := by
  exact ⟨rfl, rfl⟩

theorem createTerraformRun_run (w : World) (t : Terraform) :
    (createTerraformRun w t).1 = setRunIDWith w.runIdGen t := by
  cases h1 : createRbacConfigIfNotExist w <;>
    cases h2 : w.cmCreate <;>
      cases h3 : createSecretForOutputs w <;>
        cases h4 : w.jobCreate <;>
          simp [createTerraformRun, h1, h2, h3, h4]

theorem handleRunCreate_gen_obsGen (cfg : Cfg) (w : World) (t : Terraform) :
    (handleRunCreate cfg w t).run.generation = t.generation
    ∧ ((handleRunCreate cfg w t).run.status.observedGeneration
          = t.status.observedGeneration
        ∨ (handleRunCreate cfg w t).run.status.observedGeneration = t.generation) := by
  unfold handleRunCreate
  cases hc : checkDependencies w.store t with
  | error e =>
    by_cases hw : isWaiting t = true
    · simp [hw]
    · simp only [Bool.not_eq_true] at hw
      simp [hw, updateRunStatus_gen, updateRunStatus_obsGen]
  | ok deps =>
    have hrun := createTerraformRun_run w (setVariablesFromDependencies deps t)
    have hg1 := (setRunIDWith_gen w.runIdGen (setVariablesFromDependencies deps t)).1
    have hg2 := (setVariablesFromDependencies_gen deps t).1
    cases h2 : (createTerraformRun w (setVariablesFromDependencies deps t)).2 <;>
      simp [h2, updateRunStatus_gen, updateRunStatus_obsGen, hrun, hg1, hg2]

theorem handleRunJobWatch_gen_obsGen (cfg : Cfg) (w : World) (t : Terraform) :
    (handleRunJobWatch cfg w t).run.generation = t.generation
    ∧ ((handleRunJobWatch cfg w t).run.status.observedGeneration
          = t.status.observedGeneration
        ∨ (handleRunJobWatch cfg w t).run.status.observedGeneration = t.generation) := by
  unfold handleRunJobWatch
  cases hj : getJobForRun w t t.status.runID with
  | error e => simp
  | ok job =>
    by_cases ha : 0 < job.active
    · by_cases hr : isRunning t = true
      · simp [ha, hr]
      · simp only [Bool.not_eq_true] at hr
        simp [ha, hr, updateRunStatus_gen, updateRunStatus_obsGen]
    · by_cases hsc : 0 < job.succeeded
      · simp [ha, hsc, updateRunStatus_gen, updateRunStatus_obsGen]
      · by_cases hf : 0 < job.failed
        · simp [ha, hsc, hf, updateRunStatus_gen, updateRunStatus_obsGen]
        · simp [ha, hsc, hf]

theorem reconcile_gen_obsGen (cfg : Cfg) (w : World) (t : Terraform) :
    (reconcile cfg w t).run.generation = t.generation
    ∧ ((reconcile cfg w t).run.status.observedGeneration
          = t.status.observedGeneration
        ∨ (reconcile cfg w t).run.status.observedGeneration = t.generation) := by
  unfold reconcile
  by_cases hf : TerraformFinalizer ∈ t.finalizers
  · by_cases hd : t.hasDeletionTimestamp
    · simp [hf, hd, handleRunDelete]
    · by_cases hsw : (isSubmitted t || isWaiting t) = true
      · have h := handleRunCreate_gen_obsGen cfg w t
        cases he : (handleRunCreate cfg w t).err <;>
          simp [hf, hd, hsw, he, h.1, h.2]
      · simp only [Bool.not_eq_true] at hsw
        by_cases hst : isStarted t = true
        · have h := handleRunJobWatch_gen_obsGen cfg w t
          cases he : (handleRunJobWatch cfg w t).err <;>
            simp [hf, hd, hsw, hst, he, h.1, h.2]
        · simp only [Bool.not_eq_true] at hst
          by_cases hu : isUpdated t = true
          · have h := handleRunCreate_gen_obsGen cfg w t
            cases he : (handleRunCreate cfg w t).err <;>
              simp [hf, hd, hsw, hst, hu, he, h.1, h.2]
          · simp only [Bool.not_eq_true] at hu
            simp [hf, hd, hsw, hst, hu]
  · cases hm : w.metaUpdateErr <;> simp [hf, hm]

/-- C6: a reconciliation never makes `observedGeneration` exceed
`generation`: the reconciler leaves `generation` untouched, every status
write it performs sets `observedGeneration` to the run's current
generation (and no code path sets it to anything else), so a run
satisfying `observedGeneration ≤ generation` still satisfies it after
`reconcile` returns. -/
theorem reconcile_observedGeneration_le
    (cfg : Cfg) (w : World) (t : Terraform)
    (h : t.status.observedGeneration ≤ t.generation) :
    (reconcile cfg w t).run.status.observedGeneration
        ≤ (reconcile cfg w t).run.generation
    ∧ (reconcile cfg w t).run.generation = t.generation
    ∧ ((reconcile cfg w t).run.status.observedGeneration
          = t.status.observedGeneration
        ∨ (reconcile cfg w t).run.status.observedGeneration = t.generation) := by
  obtain ⟨hg, hob⟩ := reconcile_gen_obsGen cfg w t
  refine ⟨?_, hg, hob⟩
  rw [hg]
  rcases hob with hob | hob
  · rw [hob]; exact h
  · rw [hob]

/-- Witness for C6 at a concrete run and world: `runFoo` has
`observedGeneration = 0 ≤ 1 = generation`, and the bound still holds after
reconciling it. -/
theorem reconcile_observedGeneration_le_witness :
    (reconcile cfgW wBase runFoo).run.status.observedGeneration
      ≤ (reconcile cfgW wBase runFoo).run.generation :=
  (reconcile_observedGeneration_le cfgW wBase runFoo (by decide)).1

/-- A minimal spec parameterised by terraform version `X`, module source
`S`, module version `V` and one non-environment variable `K`. -/
def minimalSpec (X S V K : String) : TerraformSpec :=
  { terraformVersion := X, module := { source := S, version := V },
    backend := "", providersConfig := "", workspace := "", dependsOn := [],
    variablesArr := #[{ key := K, value := "", valueFrom := none,
                        environmentVariable := false, dependencyRef := none }],
    outputs := [], destroy := false, deleteCompletedJobs := false, retryLimit := 0 }

/-- The strings of `pats` occur in `s` as disjoint substrings, in order. -/
def containsInOrder (s : String) : List String → Prop
  | [] => True
  | p :: ps => ∃ a b, s = a ++ (p ++ b) ∧ containsInOrder b ps

/-- The rendered `main.tf` of a minimal spec, as an explicit
concatenation. -/
theorem renderMinimal_eq (X S V K : String) (hV : V ≠ "") :
    getTerraformModuleFromTemplate (minimalSpec X S V K)
      = "terraform \x7b\n\t\n\t\trequired_version = \"~> "
        ++ (X ++ ("\"\n\t\x7d\n\tvariable \""
        ++ (K ++ ("\" \x7b\x7d\n\t\n\t## additional-blocks\n\t\n\tmodule \"operator\" \x7b\n\t\tsource = \""
        ++ (S ++ ("\"\n\t\tversion = \""
        ++ (V ++ ("\"\n\t\t"
        ++ (K ++ (" = var."
        ++ (K ++ "\n\t\x7d"))))))))))) := by
  unfold getTerraformModuleFromTemplate
  by_cases h : (minimalSpec X S V K).module.version ≠ ""
  · rw [if_pos h]
    apply congrArg String.mk
    simp [minimalSpec, renderVariableDecls, renderModuleVarLines, renderOutputBlocks,
      List.append_assoc]
  · exact absurd hV fun hne => h hne

/-- C7: rendering a minimal spec (version `X`, module source `S`, module
version `V`, one non-environment variable `K`) yields a `main.tf`
containing `required_version = "~> X"`, `variable "K" \x7b\x7d`,
`source = "S"`, `version = "V"` and `K = var.K`, in that order.  The
renderer is the total function `getTerraformModuleFromTemplate` — it
performs no I/O and, the constant template being well formed, cannot
fail. -/
theorem renderMinimal_markers_in_order (X S V K : String) (hV : V ≠ "") :
    containsInOrder (getTerraformModuleFromTemplate (minimalSpec X S V K))
      ["required_version = \"~> " ++ X ++ "\"",
       "variable \"" ++ K ++ "\" \x7b\x7d",
       "source = \"" ++ S ++ "\"",
       "version = \"" ++ V ++ "\"",
       K ++ " = var." ++ K] := by
  rw [renderMinimal_eq X S V K hV]
  refine ⟨"terraform \x7b\n\t\n\t\t",
    "\n\t\x7d\n\tvariable \"" ++ (K ++ ("\" \x7b\x7d\n\t\n\t## additional-blocks\n\t\n\tmodule \"operator\" \x7b\n\t\tsource = \"" ++ (S ++ ("\"\n\t\tversion = \"" ++ (V ++ ("\"\n\t\t" ++ (K ++ (" = var." ++ (K ++ "\n\t\x7d"))))))))),
    ?_,
    "\n\t\x7d\n\t",
    "\n\t\n\t## additional-blocks\n\t\n\tmodule \"operator\" \x7b\n\t\tsource = \"" ++ (S ++ ("\"\n\t\tversion = \"" ++ (V ++ ("\"\n\t\t" ++ (K ++ (" = var." ++ (K ++ "\n\t\x7d"))))))),
    ?_,
    "\n\t\n\t## additional-blocks\n\t\n\tmodule \"operator\" \x7b\n\t\t",
    "\n\t\tversion = \"" ++ (V ++ ("\"\n\t\t" ++ (K ++ (" = var." ++ (K ++ "\n\t\x7d"))))),
    ?_,
    "\n\t\t",
    "\n\t\t" ++ (K ++ (" = var." ++ (K ++ "\n\t\x7d"))),
    ?_,
    "\n\t\t",
    "\n\t\x7d",
    ?_,
    trivial⟩ <;>
  · apply congrArg String.mk
    simp [List.append_assoc]

/-- Witness for C7 at the unit test's concrete spec. -/
theorem renderMinimal_markers_in_order_witness :
    containsInOrder (getTerraformModuleFromTemplate
        (minimalSpec "1.0.2" "IbraheemAlSaady/test/module" "0.0.1" "length"))
      ["required_version = \"~> 1.0.2\"",
       "variable \"length\" \x7b\x7d",
       "source = \"IbraheemAlSaady/test/module\"",
       "version = \"0.0.1\"",
       "length = var.length"] := by
  have h := renderMinimal_markers_in_order "1.0.2" "IbraheemAlSaady/test/module" "0.0.1" "length"
    (by decide)
  simpa using h

end TFO
